import Mathlib

/-!
# SolarSystem.jsx : orbit simulator, pointer picker and control surface

A shallow embedding of `src/SolarSystem.jsx`.  The definitions are written once, over
a number type `α` that only has to provide the operations the source uses (literals,
`+`, `-`, `*`, `/`), and are read in two arithmetics:

* exact arithmetic, `α` a field (`ℚ`, or `ℝ` with `Math.cos`, `Math.sin`, `Math.PI` the
  real cosine, sine and `π`);
* the arithmetic of the code, `α := Double`: finite IEEE 754 binary64 numbers with
  every operation rounded to nearest, ties to even.

A JavaScript number slot is an `Option α`: `none` stands for a value that is not a
finite number (`NaN`, or `undefined` read from a missing array entry), which is
absorbing for `+`, `*`, `Math.cos` and `Math.sin`, exactly like `NaN`.
-/

namespace SolarSystem

/-- A JavaScript number: `some x` is the number `x`, `none` is `NaN`/`undefined`. -/
abbrev JSNum (α : Type) := Option α

/-- The parts of the global `Math` object used by the component. -/
structure JSMath (α : Type) where
  cos : α → α
  sin : α → α
  PI : α

/-- One entry of the `planetData` array literal. -/
structure PlanetDatum (α : Type) where
  name : String
  size : α
  distance : α
  speed : α

/-- Identity of the three.js objects that the scene effect creates per body. -/
inductive Object3D where
  | planetMesh (i : Nat)
  | orbit (i : Nat)
  | saturnRing (i : Nat)
  deriving DecidableEq, Repr

/-- The mutable fields of a planet mesh that the component reads or writes. -/
structure Mesh (α : Type) where
  id : Object3D
  children : List Object3D
  position : JSNum α × JSNum α × JSNum α
  rotationY : α

/-- An element of the `planets` array: `{ ...p, mesh, angle }`. -/
structure Planet (α : Type) where
  name : String
  size : α
  distance : α
  speed : α
  mesh : Mesh α
  angle : JSNum α

/-- The heap of JavaScript arrays holding speed vectors; a reference is an index. -/
abbrev Heap (α : Type) := List (List (JSNum α))

/-- What one run of the effect leaves behind: the background colour, the radii
(inner, outer) of the orbit guide rings, the `planets` array and the reference
`planetSpeeds` captured by the closures `animate` and `handleMouseMove`. -/
structure Scene (α : Type) where
  background : Nat
  orbits : List (α × α)
  planets : List (Planet α)
  planetSpeeds : Nat

/-- Component state together with the scene of the latest effect run. -/
structure App (α : Type) where
  heap : Heap α
  planetSpeeds : Nat
  theme : String
  scene : Scene α

/-- What can happen to a mounted component: a display frame, a slider `onChange`
for the slider at `index`, or a click on the theme button.  The events that re-run
the effect carry the `Math.random()` values of that run. -/
inductive Event (α : Type) where
  | tick
  | slider (index : Nat) (value : String) (random : Nat → α)
  | themeButton (random : Nat → α)

/-- The fields of a `mousemove` event that the handler reads. -/
structure MouseEvent (α : Type) where
  clientX : α
  clientY : α

/-- The fields of `window` that the handler reads. -/
structure Window (α : Type) where
  innerWidth : α
  innerHeight : α

/-- The style and text of the tooltip element; `left`/`top` are in pixels and
`innerText := none` records that `undefined` was assigned. -/
structure Tooltip (α : Type) where
  display : String
  left : α
  top : α
  innerText : Option String

variable {α : Type}

/-! ## Operations that do no arithmetic -/

/-- Array read `xs[i]`: `undefined` (here `none`) outside the array or at a hole. -/
def jsIndex (xs : List (JSNum α)) (i : Nat) : JSNum α :=
  (xs[i]?).join

/-- The array a reference points to. -/
def deref (heap : Heap α) (r : Nat) : List (JSNum α) :=
  (heap[r]?).getD []

/-- Array write `xs[i] = v`; writing past the end leaves holes. -/
def jsArraySet (xs : List (JSNum α)) (i : Nat) (v : JSNum α) : List (JSNum α) :=
  if i < xs.length then xs.set i v
  else xs ++ List.replicate (i - xs.length) none ++ [v]

/-- The handler `handleSpeedChange(index, value)`.  `planetSpeeds` is the reference
held by the React state; the result is the heap after the call and the reference
handed to `setPlanetSpeeds`.  `parseFloat` is the JavaScript built-in. -/
def handleSpeedChange (parseFloat : String → JSNum α) (heap : Heap α)
    (planetSpeeds : Nat) (index : Nat) (value : String) : Heap α × Nat :=
  let newSpeeds := heap.length
  let heap1 := heap ++ [deref heap planetSpeeds]
  let heap2 := heap1.set newSpeeds (jsArraySet (deref heap1 newSpeeds) index (parseFloat value))
  (heap2, newSpeeds)

/-- The updater passed to `setTheme` by `toggleTheme`. -/
def toggleTheme (prev : String) : String :=
  if prev = "dark" then "light" else "dark"

/-- Number of star vertices generated by the effect before the planets are built. -/
def starCount : Nat := 3000

/-- Colour passed to `scene.background`: `theme === 'dark' ? 0x000000 : 0xffffff`. -/
def backgroundColor (theme : String) : Nat :=
  if theme = "dark" then 0x000000 else 0xffffff

/-- Angle of body `j` in the current scene. -/
def angleOf (app : App α) (j : Nat) : Option (JSNum α) :=
  (app.scene.planets[j]?).map (fun p => p.angle)

/-- The registry body a scene object belongs to: the planet whose mesh is the object
or has the object among its children. -/
def bodyOf (planets : List (Planet α)) (obj : Object3D) : Option String :=
  (planets.find? (fun p => p.mesh.id == obj || p.mesh.children.contains obj)).map
    (fun p => p.name)

/-- JavaScript `a + b` on numbers; `NaN`/`undefined` operands give `NaN`. -/
def jsAdd [Add α] (a b : JSNum α) : JSNum α :=
  match a, b with
  | some x, some y => some (x + y)
  | _, _ => none

/-- JavaScript `a * d` for a possibly-`NaN` `a` and a number `d`. -/
def jsMulNum [Mul α] (a : JSNum α) (d : α) : JSNum α :=
  a.map (fun x => x * d)

/-! ## The registry and the orbit simulator -/

section Arithmetic

variable [Zero α] [One α] [NatCast α] [Add α] [Sub α] [Neg α] [Mul α] [Div α]

/-- The module-level constant `planetData`; a decimal literal such as `0.03` is the
quotient `3 / 100` (in `Double`: the double nearest to it, as in JavaScript). -/
def planetData : List (PlanetDatum α) :=
  [ { name := "Mercury", size := 2, distance := 18, speed := 3 / 100 },
    { name := "Venus", size := 5 / 2, distance := 24, speed := 2 / 100 },
    { name := "Earth", size := 3, distance := 30, speed := 1 / 100 },
    { name := "Mars", size := 27 / 10, distance := 36, speed := 16 / 1000 },
    { name := "Jupiter", size := 45 / 10, distance := 44, speed := 11 / 1000 },
    { name := "Saturn", size := 42 / 10, distance := 52, speed := 1 / 100 },
    { name := "Uranus", size := 38 / 10, distance := 60, speed := 8 / 1000 },
    { name := "Neptune", size := 37 / 10, distance := 68, speed := 6 / 1000 } ]

/-- Body of the `planets.forEach((planet, i) => ...)` callback in `animate`. -/
def animatePlanet (M : JSMath α) (planetSpeeds : List (JSNum α))
    (i : Nat) (planet : Planet α) : Planet α :=
  let angle := jsAdd planet.angle (jsIndex planetSpeeds i)
  let x := jsMulNum (angle.map M.cos) planet.distance
  let z := jsMulNum (angle.map M.sin) planet.distance
  { planet with
    angle := angle
    mesh := { planet.mesh with
      position := (x, some 0, z)
      rotationY := planet.mesh.rotationY + 1 / 100 } }

/-- One execution of `animate` (one rendered frame): every planet is updated
in place with the speed vector captured by the closure. -/
def animate (M : JSMath α) (planetSpeeds : List (JSNum α))
    (planets : List (Planet α)) : List (Planet α) :=
  planets.mapIdx (animatePlanet M planetSpeeds)

/-- The state of `planets` after `k` consecutive frames with a fixed speed vector
(`animate` re-schedules itself through `requestAnimationFrame`). -/
def animateN (M : JSMath α) (planetSpeeds : List (JSNum α)) :
    Nat → List (Planet α) → List (Planet α)
  | 0, planets => planets
  | k + 1, planets => animateN M planetSpeeds k (animate M planetSpeeds planets)

/-- The one-body registry of the worked scenario: Earth, orbit radius 30, speed 0.01,
angle 0, with a freshly created mesh. -/
def scenarioEarth : Planet α :=
  { name := "Earth"
    size := 3
    distance := 30
    speed := 1 / 100
    mesh :=
      { id := Object3D.planetMesh 0
        children := []
        position := (some 0, some 0, some 0)
        rotationY := 0 }
    angle := some 0 }

/-- The position that `animate` assigns for the planet's current angle. -/
def orbitPosition (M : JSMath α) (p : Planet α) : JSNum α × JSNum α × JSNum α :=
  (jsMulNum (p.angle.map M.cos) p.distance, some 0, jsMulNum (p.angle.map M.sin) p.distance)

/-! ## The scene effect -/

/-- Radius of the sun sphere, `new THREE.SphereGeometry(10, 32, 32)`. -/
def sunRadius : α := 10

/-- Inner and outer radius of the orbit guide ring of a body,
`new THREE.RingGeometry(p.distance - 1, p.distance + 1, 128)`. -/
def orbitRing (p : PlanetDatum α) : α × α :=
  (p.distance - 1, p.distance + 1)

/-- Callback of `planetData.map(p => ...)` in the effect.  `random n` is the value of
the `n`-th call of `Math.random()` during this run of the effect; the star loop has
consumed the first `3 * starCount` calls.  A new mesh sits at the origin with zero
rotation; Saturn's mesh gets the decorative ring as a child. -/
def buildPlanet (M : JSMath α) (random : Nat → α) (i : Nat)
    (p : PlanetDatum α) : Planet α :=
  { name := p.name
    size := p.size
    distance := p.distance
    speed := p.speed
    mesh :=
      { id := Object3D.planetMesh i
        children := if p.name = "Saturn" then [Object3D.saturnRing i] else []
        position := (some 0, some 0, some 0)
        rotationY := 0 }
    angle := some (random (3 * starCount + i) * M.PI * 2) }

/-- The array `planets` as built by the effect. -/
def buildPlanets (M : JSMath α) (random : Nat → α) : List (Planet α) :=
  planetData.mapIdx (buildPlanet M random)

/-- The effect `useEffect(() => { ... }, [planetSpeeds, theme])`: builds the scene for
the current state (one orbit ring and one planet per registry entry) and calls
`animate()` once before returning. -/
def useEffect (M : JSMath α) (random : Nat → α) (heap : Heap α)
    (planetSpeeds : Nat) (theme : String) : Scene α :=
  { background := backgroundColor theme
    orbits := planetData.map orbitRing
    planets := animate M (deref heap planetSpeeds) (buildPlanets M random)
    planetSpeeds := planetSpeeds }

/-! ## The control surface -/

/-- The initial speed vector `planetData.map(p => p.speed)`. -/
def initialSpeeds : List (JSNum α) :=
  planetData.map (fun p => some p.speed)

/-- First render: `useState(planetData.map(p => p.speed))`, `useState('dark')`, then
the effect. -/
def mount (M : JSMath α) (random : Nat → α) : App α :=
  let heap : Heap α := [initialSpeeds]
  { heap := heap
    planetSpeeds := 0
    theme := "dark"
    scene := useEffect M random heap 0 "dark" }

/-- One `requestAnimationFrame` callback of the current scene. -/
def frame (M : JSMath α) (app : App α) : App α :=
  { app with
    scene := { app.scene with
      planets := animate M (deref app.heap app.scene.planetSpeeds) app.scene.planets } }

/-- `k` consecutive frames of the current scene. -/
def frames (M : JSMath α) : Nat → App α → App α
  | 0, app => app
  | k + 1, app => frames M k (frame M app)

/-- A slider change: `handleSpeedChange`, then the effect that the new
`planetSpeeds` state re-runs. -/
def speedChange (M : JSMath α) (parseFloat : String → JSNum α)
    (random : Nat → α) (index : Nat) (value : String) (app : App α) : App α :=
  let r := handleSpeedChange parseFloat app.heap app.planetSpeeds index value
  { heap := r.1
    planetSpeeds := r.2
    theme := app.theme
    scene := useEffect M random r.1 r.2 app.theme }

/-- A click on the theme button: `toggleTheme`, then the effect that the new
`theme` state re-runs. -/
def themeToggle (M : JSMath α) (random : Nat → α) (app : App α) : App α :=
  { app with
    theme := toggleTheme app.theme
    scene := useEffect M random app.heap app.planetSpeeds (toggleTheme app.theme) }

/-- Reaction of the component to one event. -/
def step (M : JSMath α) (parseFloat : String → JSNum α) (app : App α) :
    Event α → App α
  | Event.tick => frame M app
  | Event.slider index value random => speedChange M parseFloat random index value app
  | Event.themeButton random => themeToggle M random app

/-- The component after a sequence of events. -/
def run (M : JSMath α) (parseFloat : String → JSNum α) (app : App α)
    (events : List (Event α)) : App α :=
  events.foldl (step M parseFloat) app

/-- The events the rendered controls can produce: the sliders are created by
`planetData.map((planet, i) => ...)`, so a slider index is below `planetData.length`. -/
def Event.fromControls : Event α → Bool
  | Event.slider index _ _ => decide (index < (planetData : List (PlanetDatum α)).length)
  | _ => true

/-- The speed reference of a component state points into the heap at an array as
long as the registry. -/
def SpeedsAligned (app : App α) : Prop :=
  app.planetSpeeds < app.heap.length ∧
    (deref app.heap app.planetSpeeds).length = (planetData : List (PlanetDatum α)).length

instance (app : App α) : Decidable (SpeedsAligned app) := by
  unfold SpeedsAligned
  exact inferInstance

/-- The state used to test the frame-effect claims: the component is mounted with
every `Math.random()` call returning 0 and one further frame is rendered. -/
def mountedOneFrame (M : JSMath α) : App α :=
  frame M (mount M (fun _ => 0))

/-! ## The pointer picker -/

/-- The pick coordinate `(mouse.x, mouse.y)` computed at the top of `handleMouseMove`.
Division by a zero window size is outside the model. -/
def mouseCoords (event : MouseEvent α) (window : Window α) : α × α :=
  ((event.clientX / window.innerWidth) * 2 - 1,
   -(event.clientY / window.innerHeight) * 2 + 1)

/-- The handler `handleMouseMove(event)`.  `intersectObjects mouse meshes` stands for
`raycaster.setFromCamera(mouse, camera)` followed by
`raycaster.intersectObjects(meshes)`: the `.object` of every intersection, nearest
first. -/
def handleMouseMove (intersectObjects : α × α → List (Mesh α) → List Object3D)
    (window : Window α) (planets : List (Planet α)) (tooltip : Tooltip α)
    (event : MouseEvent α) : Tooltip α :=
  let mouse := mouseCoords event window
  let intersects := intersectObjects mouse (planets.map (fun p => p.mesh))
  match intersects with
  | first :: _ =>
    let planetName := (planets.find? (fun p => p.mesh.id == first)).map (fun p => p.name)
    { display := "block"
      left := event.clientX + 10
      top := event.clientY + 10
      innerText := planetName }
  | [] => { tooltip with display := "none" }

end Arithmetic

/-! ## The arithmetic of the code: IEEE 754 binary64 -/

/-- Nearest integer to a rational, ties to the even one. -/
def roundHalfEven (q : ℚ) : ℤ :=
  if q - ⌊q⌋ < 1 / 2 then ⌊q⌋
  else if 1 / 2 < q - ⌊q⌋ then ⌊q⌋ + 1
  else if ⌊q⌋ % 2 = 0 then ⌊q⌋ else ⌊q⌋ + 1

/-- Exponent of the unit in the last place for a positive rational `q * 2 ^ e`
(`q` is the running significand): the `e` with `2 ^ 52 ≤ q < 2 ^ 53`, but not below
the subnormal exponent `-1074`. -/
def ulpExponent : Nat → ℚ → ℤ → ℤ
  | 0, _, e => e
  | fuel + 1, q, e =>
    if q < 2 ^ 52 then (if e ≤ -1074 then e else ulpExponent fuel (q * 2) (e - 1))
    else if 2 ^ 53 ≤ q then ulpExponent fuel (q / 2) (e + 1)
    else e

/-- The binary64 number nearest to a rational, ties to even.  Overflow to `Infinity`
(magnitudes from `2 ^ 1024`) is outside the model. -/
def roundDouble (q : ℚ) : ℚ :=
  if q = 0 then 0
  else (roundHalfEven (q / 2 ^ ulpExponent 2200 |q| 0) : ℚ) * 2 ^ ulpExponent 2200 |q| 0

/-- A finite JavaScript number, given by its exact value. -/
structure Double where
  val : ℚ
  deriving DecidableEq

instance : Zero Double := ⟨⟨0⟩⟩

instance : One Double := ⟨⟨1⟩⟩

instance : NatCast Double := ⟨fun n => ⟨roundDouble n⟩⟩

instance : Add Double := ⟨fun a b => ⟨roundDouble (a.val + b.val)⟩⟩

instance : Sub Double := ⟨fun a b => ⟨roundDouble (a.val - b.val)⟩⟩

instance : Neg Double := ⟨fun a => ⟨-a.val⟩⟩

instance : Mul Double := ⟨fun a b => ⟨roundDouble (a.val * b.val)⟩⟩

instance : Div Double := ⟨fun a b => ⟨roundDouble (a.val / b.val)⟩⟩

/-- Partial sum of the cosine series, `n` terms. -/
def cosSeries : Nat → ℚ → ℚ
  | 0, _ => 0
  | n + 1, x => cosSeries n x + (-1) ^ n * x ^ (2 * n) / (2 * n).factorial

/-- Partial sum of the sine series, `n` terms. -/
def sinSeries : Nat → ℚ → ℚ
  | 0, _ => 0
  | n + 1, x => sinSeries n x + (-1) ^ n * x ^ (2 * n + 1) / (2 * n + 1).factorial

/-- The `Math` object on doubles, for the small arguments of the examples:
`Math.cos` and `Math.sin` return the double nearest to the cosine and sine (taken
from twelve terms of the series), `Math.PI` is the double nearest to `π`. -/
def doubleMath : JSMath Double :=
  { cos := fun a => ⟨roundDouble (cosSeries 12 a.val)⟩
    sin := fun a => ⟨roundDouble (sinSeries 12 a.val)⟩
    PI := ⟨884279719003555 / 281474976710656⟩ }

/-! ## Basic facts about the animate step -/

theorem animate_getElem? [Zero α] [One α] [NatCast α] [Add α] [Mul α] [Div α]
    (M : JSMath α) (speeds : List (JSNum α))
    (planets : List (Planet α)) (i : Nat) :
    (animate M speeds planets)[i]? = (planets[i]?).map (animatePlanet M speeds i) := by
  simp [animate]

/-- The planet at index `i` after `k` frames is the `k`-fold update of the planet at
index `i`: bodies do not interact. -/
theorem animateN_getElem? [Zero α] [One α] [NatCast α] [Add α] [Mul α] [Div α]
    (M : JSMath α) (speeds : List (JSNum α))
    (k : Nat) (planets : List (Planet α)) (i : Nat) :
    (animateN M speeds k planets)[i]? = (planets[i]?).map ((animatePlanet M speeds i)^[k]) := by
  induction k generalizing planets with
  | zero => simp [animateN]
  | succ k ih =>
    rw [animateN, ih, animate_getElem?]
    cases planets[i]? <;> simp [Function.iterate_succ]

theorem iterate_animatePlanet_angle [Field α] (M : JSMath α) (speeds : List (JSNum α))
    (i k : Nat) (p : Planet α) (a0 s : α) (ha : p.angle = some a0)
    (hs : jsIndex speeds i = some s) :
    ((animatePlanet M speeds i)^[k] p).angle = some (a0 + k * s) := by
  induction k generalizing p a0 with
  | zero => simpa using ha
  | succ k ih =>
    rw [Function.iterate_succ, Function.comp_apply]
    have h1 : (animatePlanet M speeds i p).angle = some (a0 + s) := by
      simp [animatePlanet, ha, hs, jsAdd]
    rw [ih _ _ h1]
    congr 1
    push_cast
    ring

/-- In any arithmetic, `k` frames add the speed entry `k` times, one addition per
frame. -/
theorem iterate_animatePlanet_angle_add [Zero α] [One α] [NatCast α] [Add α] [Mul α] [Div α]
    (M : JSMath α) (speeds : List (JSNum α))
    (i k : Nat) (p : Planet α) (a0 s : α) (ha : p.angle = some a0)
    (hs : jsIndex speeds i = some s) :
    ((animatePlanet M speeds i)^[k] p).angle = some ((fun a => a + s)^[k] a0) := by
  induction k generalizing p a0 with
  | zero => simpa using ha
  | succ k ih =>
    rw [Function.iterate_succ, Function.comp_apply]
    have h1 : (animatePlanet M speeds i p).angle = some (a0 + s) := by
      simp [animatePlanet, ha, hs, jsAdd]
    rw [ih _ _ h1]
    rfl

theorem iterate_animatePlanet_distance [Zero α] [One α] [NatCast α] [Add α] [Mul α] [Div α]
    (M : JSMath α) (speeds : List (JSNum α)) (i k : Nat) (p : Planet α) :
    ((animatePlanet M speeds i)^[k] p).distance = p.distance := by
  induction k generalizing p with
  | zero => rfl
  | succ k ih =>
    rw [Function.iterate_succ, Function.comp_apply, ih]
    rfl

theorem animateN_succ_last [Zero α] [One α] [NatCast α] [Add α] [Mul α] [Div α]
    (M : JSMath α) (speeds : List (JSNum α)) (k : Nat) (planets : List (Planet α)) :
    animateN M speeds (k + 1) planets = animate M speeds (animateN M speeds k planets) := by
  induction k generalizing planets with
  | zero => rfl
  | succ k ih =>
    rw [animateN, ih]
    rfl

theorem animatePlanet_position [Zero α] [One α] [NatCast α] [Add α] [Mul α] [Div α]
    (M : JSMath α) (speeds : List (JSNum α))
    (i : Nat) (p : Planet α) :
    (animatePlanet M speeds i p).mesh.position = orbitPosition M (animatePlanet M speeds i p) := by
  simp [animatePlanet, orbitPosition]

theorem animatePlanet_zero_speed [Field α] (M : JSMath α) (speeds : List (JSNum α))
    (i : Nat) (p : Planet α) (h0 : jsIndex speeds i = some 0) :
    (animatePlanet M speeds i p).angle = p.angle := by
  cases hp : p.angle <;> simp [animatePlanet, h0, jsAdd, hp]

theorem iterate_animatePlanet_zero_speed [Field α] (M : JSMath α) (speeds : List (JSNum α))
    (i k : Nat) (p : Planet α) (h0 : jsIndex speeds i = some 0) :
    ((animatePlanet M speeds i)^[k] p).angle = p.angle ∧
      ((animatePlanet M speeds i)^[k] p).distance = p.distance ∧
      (p.mesh.position = orbitPosition M p →
        ((animatePlanet M speeds i)^[k] p).mesh.position = p.mesh.position) := by
  induction k generalizing p with
  | zero => simp
  | succ k ih =>
    rw [Function.iterate_succ, Function.comp_apply]
    obtain ⟨h1, h2, h3⟩ := ih (animatePlanet M speeds i p)
    have ha := animatePlanet_zero_speed M speeds i p h0
    have hd : (animatePlanet M speeds i p).distance = p.distance := rfl
    refine ⟨h1.trans ha, h2.trans hd, fun hpos => ?_⟩
    rw [h3 (animatePlanet_position M speeds i p), animatePlanet_position, hpos]
    simp [orbitPosition, ha, hd]

theorem buildPlanets_getElem? [Zero α] [One α] [NatCast α] [Add α] [Mul α] [Div α]
    (M : JSMath α) (random : Nat → α) (j : Nat) :
    (buildPlanets M random)[j]? = (planetData[j]?).map (buildPlanet M random j) := by
  simp [buildPlanets]

/-! ## Claims about the orbit simulator -/

/-- C1: with the speed vector held fixed and entry `s` at index `i`, the body at
index `i` that starts at angle `a0` has angle `a0 + k * s` after `k` executions of
`animate`. -/
theorem animateN_angle [Field α] (M : JSMath α) (speeds : List (JSNum α))
    (planets : List (Planet α)) (i k : Nat) (p : Planet α) (a0 s : α)
    (hp : planets[i]? = some p) (ha : p.angle = some a0)
    (hs : jsIndex speeds i = some s) :
    ((animateN M speeds k planets)[i]?).map (fun q => q.angle) = some (some (a0 + k * s)) := by
  rw [animateN_getElem?, hp]
  simp [iterate_animatePlanet_angle M speeds i k p a0 s ha hs]

/-- Scenario of C1: Earth alone with speed 0.01 and angle 0 has angle 1 after 100
frames. -/
theorem animateN_angle_witness :
    ((animateN (JSMath.mk Real.cos Real.sin Real.pi) [some (1 / 100)] 100
        [scenarioEarth])[0]?).map (fun q => q.angle) = some (some (1 : ℝ)) := by
  have h := animateN_angle (JSMath.mk Real.cos Real.sin Real.pi) [some (1 / 100)]
    [scenarioEarth] 0 100 scenarioEarth 0 (1 / 100) rfl rfl rfl
  rw [h]
  norm_num

/-- One `animate` step over the reals: a body with numeric angle `a` and numeric speed
entry `s` is placed at `(cos (a + s) * distance, 0, sin (a + s) * distance)`. -/
theorem animatePlanet_real_position (speeds : List (JSNum ℝ)) (i : Nat) (p : Planet ℝ)
    (a s : ℝ) (ha : p.angle = some a) (hs : jsIndex speeds i = some s) :
    (animatePlanet (JSMath.mk Real.cos Real.sin Real.pi) speeds i p).mesh.position
      = (some (Real.cos (a + s) * p.distance), some 0, some (Real.sin (a + s) * p.distance)) := by
  simp [animatePlanet, ha, hs, jsAdd, jsMulNum]

/-- C2, in exact real arithmetic (`Math.cos`, `Math.sin` the real cosine and sine, sums
and products exact): for every body with a numeric angle and a numeric speed entry,
the position that one `animate` step writes to the mesh is `(x, 0, z)` with
`x ^ 2 + z ^ 2 = distance ^ 2`, and the step leaves the body's `distance` as it was;
in the scene that the effect builds, after every frame, `distance` is the orbit
radius of that body in `planetData`. -/
theorem animate_position_on_circle (speeds : List (JSNum ℝ)) (planets : List (Planet ℝ))
    (i : Nat) (p : Planet ℝ) (a s : ℝ) (random : Nat → ℝ) (k : Nat) (d : PlanetDatum ℝ)
    (hp : planets[i]? = some p) (ha : p.angle = some a)
    (hs : jsIndex speeds i = some s) (hd : planetData[i]? = some d) :
    (∃ q x z, (animate (JSMath.mk Real.cos Real.sin Real.pi) speeds planets)[i]? = some q ∧
      q.mesh.position = (some x, some 0, some z) ∧
      x ^ 2 + z ^ 2 = q.distance ^ 2 ∧ q.distance = p.distance) ∧
    (∃ q x z, (animateN (JSMath.mk Real.cos Real.sin Real.pi) speeds (k + 1)
        (buildPlanets (JSMath.mk Real.cos Real.sin Real.pi) random))[i]? = some q ∧
      q.mesh.position = (some x, some 0, some z) ∧
      x ^ 2 + z ^ 2 = d.distance ^ 2) := by
  constructor
  · refine ⟨animatePlanet (JSMath.mk Real.cos Real.sin Real.pi) speeds i p,
      Real.cos (a + s) * p.distance, Real.sin (a + s) * p.distance, ?_, ?_, ?_, rfl⟩
    · rw [animate_getElem?, hp]
      rfl
    · exact animatePlanet_real_position speeds i p a s ha hs
    · have h := Real.cos_sq_add_sin_sq (a + s)
      have hd1 : (animatePlanet (JSMath.mk Real.cos Real.sin Real.pi) speeds i p).distance
          = p.distance := rfl
      rw [hd1]
      linear_combination p.distance ^ 2 * h
  · have hk := iterate_animatePlanet_angle (JSMath.mk Real.cos Real.sin Real.pi) speeds i k
      (buildPlanet (JSMath.mk Real.cos Real.sin Real.pi) random i d)
      (random (3 * starCount + i) * Real.pi * 2) s rfl hs
    have hdist := iterate_animatePlanet_distance (JSMath.mk Real.cos Real.sin Real.pi) speeds i k
      (buildPlanet (JSMath.mk Real.cos Real.sin Real.pi) random i d)
    have hdist1 : ((animatePlanet (JSMath.mk Real.cos Real.sin Real.pi) speeds i)^[k]
        (buildPlanet (JSMath.mk Real.cos Real.sin Real.pi) random i d)).distance = d.distance :=
      hdist
    refine ⟨animatePlanet (JSMath.mk Real.cos Real.sin Real.pi) speeds i
        ((animatePlanet (JSMath.mk Real.cos Real.sin Real.pi) speeds i)^[k]
          (buildPlanet (JSMath.mk Real.cos Real.sin Real.pi) random i d)),
      Real.cos (random (3 * starCount + i) * Real.pi * 2 + k * s + s) * d.distance,
      Real.sin (random (3 * starCount + i) * Real.pi * 2 + k * s + s) * d.distance, ?_, ?_, ?_⟩
    · rw [animateN_succ_last, animate_getElem?, animateN_getElem?, buildPlanets_getElem?, hd]
      rfl
    · rw [animatePlanet_real_position speeds i _ _ s hk hs, hdist1]
    · have h := Real.cos_sq_add_sin_sq (random (3 * starCount + i) * Real.pi * 2 + k * s + s)
      linear_combination d.distance ^ 2 * h

/-- Instance of C2 over the reals: Mercury in the scene built by the effect, after
three frames with the initial speed vector. -/
theorem animate_position_on_circle_witness :
    ∃ q x z, (animateN (JSMath.mk Real.cos Real.sin Real.pi) initialSpeeds (2 + 1)
        (buildPlanets (JSMath.mk Real.cos Real.sin Real.pi) (fun _ => 1 / 2)))[0]? = some q ∧
      q.mesh.position = (some x, some 0, some z) ∧
      x ^ 2 + z ^ 2 = (18 : ℝ) ^ 2 :=
  (animate_position_on_circle initialSpeeds [scenarioEarth] 0 scenarioEarth 0 (3 / 100)
    (fun _ => 1 / 2) 2 (PlanetDatum.mk "Mercury" 2 18 (3 / 100)) rfl rfl rfl rfl).2

/-- The values of the double `Math` object at Mercury's first angle:
`0.03` is stored as the double nearest to it, `Math.cos(0.03) = 0.9995500337489875`,
`Math.sin(0.03) = 0.02999550020249566`, and `Math.PI = 3.141592653589793`. -/
theorem doubleMath_at_first_angle :
    (3 / 100 : Double) = Double.mk (1080863910568919 / 36028797018963968) ∧
    doubleMath.cos (3 / 100) = Double.mk (4501573159530107 / 4503599627370496) ∧
    doubleMath.sin (3 / 100) = Double.mk (4322807153112035 / 144115188075855872) ∧
    doubleMath.PI = Double.mk (884279719003555 / 281474976710656) := by
  refine ⟨by decide!, by decide!, by decide!, rfl⟩

/-- Counterexample to C2 in the arithmetic of the code: after mounting with
`Math.random()` returning 0, the first frame puts Mercury (distance 18, angle 0.03) at
`x = 17.991900607481774`, `z = 0.5399190036449218`.  These two numbers do not satisfy
`x ^ 2 + z ^ 2 = 18 ^ 2`, and the JavaScript expression `x * x + z * z` evaluates to
`323.99999999999994`, not to `324`. -/
theorem first_frame_off_circle :
    ((mount doubleMath (fun _ => 0)).scene.planets[0]?).map (fun p => (p.name, p.distance))
      = some ("Mercury", 18) ∧
    ((mount doubleMath (fun _ => 0)).scene.planets[0]?).map (fun p => p.angle)
      = some (some (Double.mk (1080863910568919 / 36028797018963968))) ∧
    ((mount doubleMath (fun _ => 0)).scene.planets[0]?).map (fun p => p.mesh.position)
      = some (some (Double.mk (2532134902235685 / 140737488355328)), some 0,
          some (Double.mk (4863158047251039 / 9007199254740992))) ∧
    (2532134902235685 / 140737488355328 : ℚ) ^ 2
        + (4863158047251039 / 9007199254740992 : ℚ) ^ 2 ≠ 18 ^ 2 ∧
    Double.mk (2532134902235685 / 140737488355328)
          * Double.mk (2532134902235685 / 140737488355328)
        + Double.mk (4863158047251039 / 9007199254740992)
          * Double.mk (4863158047251039 / 9007199254740992)
      = Double.mk (5699868278390783 / 17592186044416) ∧
    Double.mk (5699868278390783 / 17592186044416) ≠ 18 * 18 := by
  refine ⟨by decide!, by decide!, by decide!, by norm_num, by decide!, by decide!⟩

/-- C5: if the speed entry of body `i` is 0 then (a) from any state its angle after
`k` frames is the angle it had, and (b) from any state left by an `animate` step,
its angle and its mesh position after `k` further frames are the ones it had,
whatever the other entries of the speed vector are. -/
theorem zero_speed_freezes [Field α] (M : JSMath α) (speeds0 speeds : List (JSNum α))
    (planets0 : List (Planet α)) (i k : Nat) (h0 : jsIndex speeds i = some 0) :
    ((animateN M speeds k planets0)[i]?).map (fun q => q.angle)
        = (planets0[i]?).map (fun q => q.angle) ∧
      ((animateN M speeds k (animate M speeds0 planets0))[i]?).map
          (fun q => (q.angle, q.mesh.position))
        = ((animate M speeds0 planets0)[i]?).map (fun q => (q.angle, q.mesh.position)) := by
  constructor
  · rw [animateN_getElem?]
    cases planets0[i]? with
    | none => rfl
    | some p => simp [(iterate_animatePlanet_zero_speed M speeds i k p h0).1]
  · rw [animateN_getElem?, animate_getElem?]
    cases planets0[i]? with
    | none => rfl
    | some p =>
      obtain ⟨h1, _, h3⟩ :=
        iterate_animatePlanet_zero_speed M speeds i k (animatePlanet M speeds0 i p) h0
      simp [h1, h3 (animatePlanet_position M speeds0 i p)]

/-- Instance of C5: Earth of the scenario, moved by one frame at speed 0.01 and then
run for 7 frames at speed 0. -/
theorem zero_speed_freezes_witness :
    jsIndex [some (0 : ℝ)] 0 = some 0 ∧
    ((animateN (JSMath.mk Real.cos Real.sin Real.pi) [some 0] 7
        (animate (JSMath.mk Real.cos Real.sin Real.pi) [some (1 / 100)] [scenarioEarth]))[0]?).map
          (fun q => (q.angle, q.mesh.position))
      = ((animate (JSMath.mk Real.cos Real.sin Real.pi) [some (1 / 100)]
          [scenarioEarth])[0]?).map (fun q => (q.angle, q.mesh.position)) :=
  ⟨rfl, (zero_speed_freezes (JSMath.mk Real.cos Real.sin Real.pi) [some (1 / 100)] [some 0]
    [scenarioEarth] 0 7 rfl).2⟩

/-! ## Facts about the scene effect -/

theorem useEffect_planets_getElem? [Zero α] [One α] [NatCast α] [Add α] [Mul α] [Div α] [Sub α]
    (M : JSMath α) (random : Nat → α)
    (heap : Heap α) (r : Nat) (theme : String) (j : Nat) :
    (useEffect M random heap r theme).planets[j]?
      = (planetData[j]?).map
          (fun d => animatePlanet M (deref heap r) j (buildPlanet M random j d)) := by
  simp [useEffect, animate_getElem?, buildPlanets_getElem?, Function.comp_def]

theorem frames_heap [Zero α] [One α] [NatCast α] [Add α] [Mul α] [Div α]
    (M : JSMath α) (k : Nat) (app : App α) :
    (frames M k app).heap = app.heap ∧ (frames M k app).planetSpeeds = app.planetSpeeds ∧
      (frames M k app).theme = app.theme ∧
      (frames M k app).scene.planetSpeeds = app.scene.planetSpeeds ∧
      (frames M k app).scene.background = app.scene.background := by
  induction k generalizing app with
  | zero => simp [frames]
  | succ k ih =>
    obtain ⟨h1, h2, h3, h4, h5⟩ := ih (frame M app)
    exact ⟨h1, h2, h3, h4, h5⟩

theorem frames_planets [Zero α] [One α] [NatCast α] [Add α] [Mul α] [Div α]
    (M : JSMath α) (k : Nat) (app : App α) :
    (frames M k app).scene.planets
      = animateN M (deref app.heap app.scene.planetSpeeds) k app.scene.planets := by
  induction k generalizing app with
  | zero => rfl
  | succ k ih =>
    rw [frames, ih, animateN]
    rfl

/-- In any arithmetic: after a run of the effect and `k` further frames, the angle of
body `j` is the fresh value `random * PI * 2` with the speed entry added `k + 1`
times. -/
theorem effect_frames_angle_add [Zero α] [One α] [NatCast α] [Add α] [Mul α] [Div α] [Sub α]
    (M : JSMath α) (random : Nat → α) (app : App α)
    (j k : Nat) (d : PlanetDatum α) (s : α)
    (happ : app.scene = useEffect M random app.heap app.planetSpeeds app.theme)
    (hd : planetData[j]? = some d)
    (hs : jsIndex (deref app.heap app.planetSpeeds) j = some s) :
    angleOf (frames M k app) j
      = some (some ((fun a => a + s)^[k + 1] (random (3 * starCount + j) * M.PI * 2))) := by
  have hsp : app.scene.planetSpeeds = app.planetSpeeds := by rw [happ]; rfl
  have hp : app.scene.planets[j]?
      = some (animatePlanet M (deref app.heap app.planetSpeeds) j (buildPlanet M random j d)) := by
    rw [happ, useEffect_planets_getElem?, hd]
    rfl
  have ha : (animatePlanet M (deref app.heap app.planetSpeeds) j (buildPlanet M random j d)).angle
      = some (random (3 * starCount + j) * M.PI * 2 + s) := by
    simp [animatePlanet, buildPlanet, hs, jsAdd]
  rw [angleOf, frames_planets, hsp, animateN_getElem?, hp]
  simp only [Option.map_some']
  rw [iterate_animatePlanet_angle_add M _ j k _ _ s ha hs]
  rfl

/-- After a run of the effect and `k` further frames, the angle of body `j` is the
fresh draw scaled to a full turn plus `k + 1` speed increments. -/
theorem effect_frames_angle [Field α] (M : JSMath α) (random : Nat → α) (app : App α)
    (j k : Nat) (d : PlanetDatum α) (s : α)
    (happ : app.scene = useEffect M random app.heap app.planetSpeeds app.theme)
    (hd : planetData[j]? = some d)
    (hs : jsIndex (deref app.heap app.planetSpeeds) j = some s) :
    angleOf (frames M k app) j
      = some (some (random (3 * starCount + j) * M.PI * 2 + (k + 1) * s)) := by
  have hsp : app.scene.planetSpeeds = app.planetSpeeds := by rw [happ]; rfl
  have hp : app.scene.planets[j]?
      = some (animatePlanet M (deref app.heap app.planetSpeeds) j (buildPlanet M random j d)) := by
    rw [happ, useEffect_planets_getElem?, hd]
    rfl
  have ha : (animatePlanet M (deref app.heap app.planetSpeeds) j (buildPlanet M random j d)).angle
      = some (random (3 * starCount + j) * M.PI * 2 + s) := by
    simp [animatePlanet, buildPlanet, hs, jsAdd]
  rw [angleOf, frames_planets, hsp, animateN_getElem?, hp]
  simp only [Option.map_some']
  rw [iterate_animatePlanet_angle M _ j k _ _ s ha hs]
  congr 2
  ring

theorem jsArraySet_getElem?_other (xs : List (JSNum α)) (i j : Nat) (v : JSNum α)
    (hj : j < xs.length) (hji : j ≠ i) : (jsArraySet xs i v)[j]? = xs[j]? := by
  unfold jsArraySet
  split
  · exact List.getElem?_set_ne (Ne.symm hji)
  · rw [List.append_assoc, List.getElem?_append_left hj]

theorem jsIndex_lt (xs : List (JSNum α)) (j : Nat) (s : α) (h : jsIndex xs j = some s) :
    j < xs.length := by
  rcases Nat.lt_or_ge j xs.length with h1 | h1
  · exact h1
  · simp [jsIndex, List.getElem?_eq_none h1] at h

/-! ## Claims about the control surface and the registry -/

theorem handleSpeedChange_deref_new (parseFloat : String → JSNum α) (heap : Heap α)
    (r i : Nat) (value : String) :
    deref (handleSpeedChange parseFloat heap r i value).1
        (handleSpeedChange parseFloat heap r i value).2
      = jsArraySet (deref heap r) i (parseFloat value) := by
  simp [handleSpeedChange, deref]

theorem handleSpeedChange_old (parseFloat : String → JSNum α) (heap : Heap α)
    (r i : Nat) (value : String) (r0 : Nat) (h : r0 < heap.length) :
    (handleSpeedChange parseFloat heap r i value).1[r0]? = heap[r0]? := by
  simp only [handleSpeedChange]
  rw [List.getElem?_set_ne (Nat.ne_of_gt h), List.getElem?_append_left h]

theorem jsArraySet_length (xs : List (JSNum α)) (i : Nat) (v : JSNum α) (h : i < xs.length) :
    (jsArraySet xs i v).length = xs.length := by
  simp [jsArraySet, h]

theorem jsArraySet_getElem?_self (xs : List (JSNum α)) (i : Nat) (v : JSNum α)
    (h : i < xs.length) : (jsArraySet xs i v)[i]? = some v := by
  simp [jsArraySet, h]

theorem jsArraySet_getElem?_ne (xs : List (JSNum α)) (i j : Nat) (v : JSNum α)
    (h : i < xs.length) (hj : j ≠ i) : (jsArraySet xs i v)[j]? = xs[j]? := by
  simp [jsArraySet, h, List.getElem?_set_ne (Ne.symm hj)]

theorem mount_aligned [Field α] (M : JSMath α) (random : Nat → α) :
    SpeedsAligned (mount M random) := by
  simp [SpeedsAligned, mount, deref, initialSpeeds, planetData]

theorem step_aligned [Field α] (M : JSMath α) (parseFloat : String → JSNum α)
    (app : App α) (e : Event α) (he : e.fromControls = true) (h : SpeedsAligned app) :
    SpeedsAligned (step M parseFloat app e) := by
  cases e with
  | tick => exact h
  | themeButton random => exact h
  | slider index value random =>
    obtain ⟨h1, h2⟩ := h
    refine ⟨?_, ?_⟩
    · simp [step, speedChange, handleSpeedChange]
    · show (deref (handleSpeedChange parseFloat app.heap app.planetSpeeds index value).1
        (handleSpeedChange parseFloat app.heap app.planetSpeeds index value).2).length = _
      rw [handleSpeedChange_deref_new,
        jsArraySet_length _ _ _ (by rw [h2]; simpa [Event.fromControls] using he), h2]

theorem run_aligned [Field α] (M : JSMath α) (parseFloat : String → JSNum α)
    (events : List (Event α)) (app : App α) (he : ∀ e ∈ events, e.fromControls = true)
    (h : SpeedsAligned app) : SpeedsAligned (run M parseFloat app events) := by
  induction events generalizing app with
  | nil => exact h
  | cons e es ih =>
    simp only [run, List.foldl_cons]
    exact ih _ (fun e1 h1 => he e1 (List.mem_cons_of_mem _ h1))
      (step_aligned M parseFloat app e (he e (List.mem_cons_self _ _)) h)

/-- C8: `handleSpeedChange(i, value)` on a speed array `v` with `i < v.length` hands
`setPlanetSpeeds` a new array `w` of the same length with `w[i] = parseFloat(value)`
and `w[j] = v[j]` for `j ≠ i`; the array `v` and every other array of the heap are
left as they were.  Hence, from the initial state `planetData.map(p => p.speed)`,
after any sequence of frames, theme clicks and slider changes the speed array has
the length of the registry, 8. -/
theorem handleSpeedChange_spec [Field α] (M : JSMath α) (parseFloat : String → JSNum α)
    (heap : Heap α) (r i : Nat) (value : String) (v : List (JSNum α))
    (random : Nat → α) (events : List (Event α))
    (hv : heap[r]? = some v) (hi : i < v.length)
    (he : ∀ e ∈ events, e.fromControls = true) :
    (deref (handleSpeedChange parseFloat heap r i value).1
        (handleSpeedChange parseFloat heap r i value).2).length = v.length ∧
      (deref (handleSpeedChange parseFloat heap r i value).1
        (handleSpeedChange parseFloat heap r i value).2)[i]? = some (parseFloat value) ∧
      (∀ j, j ≠ i →
        (deref (handleSpeedChange parseFloat heap r i value).1
          (handleSpeedChange parseFloat heap r i value).2)[j]? = v[j]?) ∧
      (∀ r0, r0 < heap.length →
        (handleSpeedChange parseFloat heap r i value).1[r0]? = heap[r0]?) ∧
      deref (handleSpeedChange parseFloat heap r i value).1 r = v ∧
      (deref (run M parseFloat (mount M random) events).heap
        (run M parseFloat (mount M random) events).planetSpeeds).length = 8 ∧
      (planetData : List (PlanetDatum α)).length = 8 := by
  have hd : deref heap r = v := by simp [deref, hv]
  have hr : r < heap.length := by
    rcases Nat.lt_or_ge r heap.length with h | h
    · exact h
    · rw [List.getElem?_eq_none h] at hv
      cases hv
  refine ⟨?_, ?_, ?_, ?_, ?_, ?_, rfl⟩
  · rw [handleSpeedChange_deref_new, hd, jsArraySet_length _ _ _ hi]
  · rw [handleSpeedChange_deref_new, hd, jsArraySet_getElem?_self _ _ _ hi]
  · intro j hj
    rw [handleSpeedChange_deref_new, hd, jsArraySet_getElem?_ne _ _ _ _ hi hj]
  · intro r0 h0
    exact handleSpeedChange_old parseFloat heap r i value r0 h0
  · simp [deref, handleSpeedChange_old parseFloat heap r i value r hr, hv]
  · exact (run_aligned M parseFloat events _ he (mount_aligned M random)).2

/-- Instance of C8: the Earth slider is moved to 0.05 on the initial state; the run
is a slider change, a frame and a theme click. -/
theorem handleSpeedChange_spec_witness :
    (deref (handleSpeedChange (fun t => if t = "0.05" then some (1 / 20 : ℝ) else none)
        [initialSpeeds] 0 2 "0.05").1
      (handleSpeedChange (fun t => if t = "0.05" then some (1 / 20 : ℝ) else none)
        [initialSpeeds] 0 2 "0.05").2)[2]? = some (some (1 / 20)) ∧
    (deref (run (JSMath.mk Real.cos Real.sin Real.pi)
        (fun t => if t = "0.05" then some (1 / 20 : ℝ) else none)
        (mount (JSMath.mk Real.cos Real.sin Real.pi) (fun _ => 0))
        [Event.slider 2 "0.05" (fun _ => 0), Event.tick, Event.themeButton (fun _ => 0)]).heap
      (run (JSMath.mk Real.cos Real.sin Real.pi)
        (fun t => if t = "0.05" then some (1 / 20 : ℝ) else none)
        (mount (JSMath.mk Real.cos Real.sin Real.pi) (fun _ => 0))
        [Event.slider 2 "0.05" (fun _ => 0), Event.tick,
          Event.themeButton (fun _ => 0)]).planetSpeeds).length = 8 := by
  have h := handleSpeedChange_spec (JSMath.mk Real.cos Real.sin Real.pi)
    (fun t => if t = "0.05" then some (1 / 20 : ℝ) else none)
    [initialSpeeds] 0 2 "0.05"
    initialSpeeds (fun _ => 0)
    [Event.slider 2 "0.05" (fun _ => 0), Event.tick, Event.themeButton (fun _ => 0)]
    rfl (by simp [initialSpeeds, planetData]) (by simp [Event.fromControls, planetData])
  exact ⟨by simpa using h.2.1, h.2.2.2.2.2.1⟩

/-- C9: on the two theme values `toggleTheme` yields the other one, twice yields the
original, and the background is `0x000000` for dark and `0xffffff` for light. -/
theorem toggleTheme_spec (t : String) (ht : t = "dark" ∨ t = "light") :
    (toggleTheme t = "dark" ∨ toggleTheme t = "light") ∧ toggleTheme t ≠ t ∧
      toggleTheme (toggleTheme t) = t ∧
      backgroundColor "dark" = 0x000000 ∧ backgroundColor "light" = 0xffffff := by
  rcases ht with rfl | rfl <;> simp [toggleTheme, backgroundColor]

/-- Instance of C9 at the initial theme. -/
theorem toggleTheme_spec_witness :
    toggleTheme "dark" = "light" ∧ toggleTheme (toggleTheme "dark") = "dark" :=
  ⟨by decide, (toggleTheme_spec "dark" (Or.inl rfl)).2.2.1⟩

/-- C10: the orbit guide rings that the effect builds are, in registry order, the
pairs (inner, outer) `(distance - 1, distance + 1)` of `planetData`, that is
`(17, 19)`, `(23, 25)`, `(29, 31)`, `(35, 37)`, `(43, 45)`, `(51, 53)`, `(59, 61)`,
`(67, 69)` for the distances 18, 24, 30, 36, 44, 52, 60, 68.  The distances increase
strictly, consecutive bodies satisfy `distance + 1 < next distance - 1`, the rings
are pairwise disjoint (each outer radius is below every later inner radius), every
ring has inner radius below outer radius and above the sun's radius 10, and the
innermost ring is Mercury's with inner radius 17. -/
theorem orbit_rings_disjoint [LinearOrderedField α] (M : JSMath α) (random : Nat → α)
    (heap : Heap α) (r : Nat) (theme : String) :
    (useEffect M random heap r theme).orbits
        = (planetData : List (PlanetDatum α)).map (fun p => (p.distance - 1, p.distance + 1)) ∧
      (useEffect M random heap r theme).orbits
        = [(17, 19), (23, 25), (29, 31), (35, 37), (43, 45), (51, 53), (59, 61), (67, 69)] ∧
      (planetData : List (PlanetDatum α)).map (fun p => p.distance)
        = [18, 24, 30, 36, 44, 52, 60, 68] ∧
      List.Chain' (fun p q : PlanetDatum α =>
        p.distance < q.distance ∧ p.distance + 1 < q.distance - 1) planetData ∧
      List.Pairwise (fun a b : α × α => a.2 < b.1) (useEffect M random heap r theme).orbits ∧
      (∀ a ∈ (useEffect M random heap r theme).orbits, sunRadius < a.1 ∧ a.1 < a.2) ∧
      (sunRadius : α) = 10 ∧
      ((planetData : List (PlanetDatum α)).head?).map (fun p => p.name) = some "Mercury" ∧
      (useEffect M random heap r theme).orbits.head? = some (17, 19) := by
  have h2 : (useEffect M random heap r theme).orbits
      = [(17, 19), (23, 25), (29, 31), (35, 37), (43, 45), (51, 53), (59, 61), (67, 69)] := by
    simp [useEffect, planetData, orbitRing]
    norm_num
  refine ⟨?_, h2, ?_, ?_, ?_, ?_, rfl, rfl, ?_⟩
  · simp [useEffect, orbitRing, Function.comp_def]
  · simp [planetData]
  · simp [planetData]
    norm_num
  · rw [h2]
    simp
    norm_num
  · rw [h2]
    simp [sunRadius]
    norm_num
  · rw [h2]
    rfl

/-! ## Frame effects of the controls -/

/-- C3, as the code behaves, in any arithmetic: after `handleSpeedChange` at index `i`
and the effect that it re-runs, the speed entry `s` of every other registry body `j`
is the one it was, but its angle restarts from the fresh value
`Math.random() * Math.PI * 2` of the rebuilt scene: after `k` further frames it is
that value with `s` added `k + 1` times, whatever the body's angle was before the
change. -/
theorem speedChange_other_body [Zero α] [One α] [NatCast α] [Add α] [Mul α] [Div α] [Sub α]
    (M : JSMath α) (parseFloat : String → JSNum α)
    (random : Nat → α) (i : Nat) (value : String) (app : App α) (j k : Nat)
    (d : PlanetDatum α) (s : α) (hji : j ≠ i) (hd : planetData[j]? = some d)
    (hs : jsIndex (deref app.heap app.planetSpeeds) j = some s) :
    jsIndex (deref (speedChange M parseFloat random i value app).heap
        (speedChange M parseFloat random i value app).planetSpeeds) j = some s ∧
      angleOf (frames M k (speedChange M parseFloat random i value app)) j
        = some (some ((fun a => a + s)^[k + 1] (random (3 * starCount + j) * M.PI * 2))) := by
  have hs1 : jsIndex (deref (speedChange M parseFloat random i value app).heap
      (speedChange M parseFloat random i value app).planetSpeeds) j = some s := by
    show jsIndex (deref (handleSpeedChange parseFloat app.heap app.planetSpeeds i value).1
      (handleSpeedChange parseFloat app.heap app.planetSpeeds i value).2) j = some s
    rw [handleSpeedChange_deref_new]
    unfold jsIndex
    rw [jsArraySet_getElem?_other _ _ _ _ (jsIndex_lt _ _ _ hs) hji]
    exact hs
  exact ⟨hs1, effect_frames_angle_add M random _ j k d s rfl hd hs1⟩

/-- Instance of the amended C3 in the arithmetic of the code: on the freshly mounted
component the Mercury slider is moved to 0.05, the rebuild draws 0.5 for every
`Math.random()`, and three frames are rendered; Earth is then at
`3.1815926535897923`, the double reached from `0.5 * Math.PI * 2` by four additions
of `0.01`. -/
theorem speedChange_other_body_witness :
    angleOf (frames doubleMath 3
      (speedChange doubleMath (fun t => if t = "0.05" then some (5 / 100) else none)
        (fun _ => Double.mk (1 / 2)) 0 "0.05" (mount doubleMath (fun _ => 0)))) 2
      = some (some (Double.mk (895538718071981 / 281474976710656))) := by
  have h := (speedChange_other_body doubleMath
    (fun t => if t = "0.05" then some (5 / 100) else none)
    (fun _ => Double.mk (1 / 2)) 0 "0.05" (mount doubleMath (fun _ => 0)) 2 3
    (PlanetDatum.mk "Earth" 3 30 (1 / 100)) (1 / 100) (by decide) rfl rfl).2
  rw [h]
  decide!

/-- Counterexample to C3: on the mounted component after one frame, Venus is at
angle 0.04 and would be at 0.06 one frame later; moving the Mercury slider (index 0)
to 0.05 puts Venus at 0.02 instead, even when `Math.random()` repeats its values. -/
theorem speedChange_alters_other_angle :
    angleOf (mountedOneFrame (JSMath.mk Real.cos Real.sin Real.pi)) 1
        = some (some (4 / 100 : ℝ)) ∧
      angleOf (frame (JSMath.mk Real.cos Real.sin Real.pi)
        (mountedOneFrame (JSMath.mk Real.cos Real.sin Real.pi))) 1
        = some (some (6 / 100 : ℝ)) ∧
      angleOf (speedChange (JSMath.mk Real.cos Real.sin Real.pi)
        (fun t => if t = "0.05" then some (1 / 20 : ℝ) else none) (fun _ => 0) 0 "0.05"
        (mountedOneFrame (JSMath.mk Real.cos Real.sin Real.pi))) 1
        = some (some (2 / 100 : ℝ)) ∧
      angleOf (speedChange (JSMath.mk Real.cos Real.sin Real.pi)
        (fun t => if t = "0.05" then some (1 / 20 : ℝ) else none) (fun _ => 0) 0 "0.05"
        (mountedOneFrame (JSMath.mk Real.cos Real.sin Real.pi))) 1
        ≠ angleOf (mountedOneFrame (JSMath.mk Real.cos Real.sin Real.pi)) 1 ∧
      angleOf (speedChange (JSMath.mk Real.cos Real.sin Real.pi)
        (fun t => if t = "0.05" then some (1 / 20 : ℝ) else none) (fun _ => 0) 0 "0.05"
        (mountedOneFrame (JSMath.mk Real.cos Real.sin Real.pi))) 1
        ≠ angleOf (frame (JSMath.mk Real.cos Real.sin Real.pi)
          (mountedOneFrame (JSMath.mk Real.cos Real.sin Real.pi))) 1 := by
  have h1 : angleOf (mountedOneFrame (JSMath.mk Real.cos Real.sin Real.pi)) 1
      = some (some (4 / 100 : ℝ)) := by
    have h := effect_frames_angle (JSMath.mk Real.cos Real.sin Real.pi) (fun _ => 0)
      (mount (JSMath.mk Real.cos Real.sin Real.pi) (fun _ => 0)) 1 1
      (PlanetDatum.mk "Venus" (5 / 2) 24 (2 / 100)) (2 / 100) rfl rfl rfl
    rw [show mountedOneFrame (JSMath.mk Real.cos Real.sin Real.pi)
      = frames (JSMath.mk Real.cos Real.sin Real.pi) 1
        (mount (JSMath.mk Real.cos Real.sin Real.pi) (fun _ => 0)) from rfl, h]
    norm_num
  have h2 : angleOf (frame (JSMath.mk Real.cos Real.sin Real.pi)
      (mountedOneFrame (JSMath.mk Real.cos Real.sin Real.pi))) 1
      = some (some (6 / 100 : ℝ)) := by
    have h := effect_frames_angle (JSMath.mk Real.cos Real.sin Real.pi) (fun _ => 0)
      (mount (JSMath.mk Real.cos Real.sin Real.pi) (fun _ => 0)) 1 2
      (PlanetDatum.mk "Venus" (5 / 2) 24 (2 / 100)) (2 / 100) rfl rfl rfl
    rw [show frame (JSMath.mk Real.cos Real.sin Real.pi)
        (mountedOneFrame (JSMath.mk Real.cos Real.sin Real.pi))
      = frames (JSMath.mk Real.cos Real.sin Real.pi) 2
        (mount (JSMath.mk Real.cos Real.sin Real.pi) (fun _ => 0)) from rfl, h]
    norm_num
  have h3 : angleOf (speedChange (JSMath.mk Real.cos Real.sin Real.pi)
      (fun t => if t = "0.05" then some (1 / 20 : ℝ) else none) (fun _ => 0) 0 "0.05"
      (mountedOneFrame (JSMath.mk Real.cos Real.sin Real.pi))) 1
      = some (some (2 / 100 : ℝ)) := by
    have h := effect_frames_angle (JSMath.mk Real.cos Real.sin Real.pi) (fun _ => 0)
      (speedChange (JSMath.mk Real.cos Real.sin Real.pi)
        (fun t => if t = "0.05" then some (1 / 20 : ℝ) else none) (fun _ => 0) 0 "0.05"
        (mountedOneFrame (JSMath.mk Real.cos Real.sin Real.pi))) 1 0
      (PlanetDatum.mk "Venus" (5 / 2) 24 (2 / 100)) (2 / 100) rfl rfl rfl
    rw [show angleOf (speedChange (JSMath.mk Real.cos Real.sin Real.pi)
        (fun t => if t = "0.05" then some (1 / 20 : ℝ) else none) (fun _ => 0) 0 "0.05"
        (mountedOneFrame (JSMath.mk Real.cos Real.sin Real.pi))) 1
      = angleOf (frames (JSMath.mk Real.cos Real.sin Real.pi) 0
        (speedChange (JSMath.mk Real.cos Real.sin Real.pi)
        (fun t => if t = "0.05" then some (1 / 20 : ℝ) else none) (fun _ => 0) 0 "0.05"
        (mountedOneFrame (JSMath.mk Real.cos Real.sin Real.pi)))) 1 from rfl, h]
    norm_num
  refine ⟨h1, h2, h3, ?_, ?_⟩
  · rw [h3, h1]
    norm_num
  · rw [h3, h2]
    norm_num

/-- C4, as the code behaves, in any arithmetic: `toggleTheme` and the effect that it
re-runs leave the speed array and its reference as they were and set the background
to the colour of the other theme, but the angle of every registry body `j` restarts
from the fresh value `Math.random() * Math.PI * 2` of the rebuilt scene: after `k`
further frames it is that value with the speed entry `s` added `k + 1` times,
whatever it was before the click. -/
theorem themeToggle_effect [Zero α] [One α] [NatCast α] [Add α] [Mul α] [Div α] [Sub α]
    (M : JSMath α) (random : Nat → α) (app : App α)
    (j k : Nat) (d : PlanetDatum α) (s : α) (hd : planetData[j]? = some d)
    (hs : jsIndex (deref app.heap app.planetSpeeds) j = some s) :
    (themeToggle M random app).heap = app.heap ∧
      (themeToggle M random app).planetSpeeds = app.planetSpeeds ∧
      (themeToggle M random app).theme = toggleTheme app.theme ∧
      (themeToggle M random app).scene.background = backgroundColor (toggleTheme app.theme) ∧
      angleOf (frames M k (themeToggle M random app)) j
        = some (some ((fun a => a + s)^[k + 1] (random (3 * starCount + j) * M.PI * 2))) :=
  ⟨rfl, rfl, rfl, rfl,
    effect_frames_angle_add M random (themeToggle M random app) j k d s rfl hd hs⟩

/-- Instance of the amended C4 in the arithmetic of the code: a theme click on the
freshly mounted component, the rebuild drawing 0.25 for every `Math.random()`, and
two frames; the background is white and Mercury is at `1.6607963267948966`, the
double reached from `0.25 * Math.PI * 2` by three additions of `0.03`. -/
theorem themeToggle_effect_witness :
    (themeToggle doubleMath (fun _ => Double.mk (1 / 4))
        (mount doubleMath (fun _ => 0))).scene.background = 0xffffff ∧
    angleOf (frames doubleMath 2
      (themeToggle doubleMath (fun _ => Double.mk (1 / 4)) (mount doubleMath (fun _ => 0)))) 0
      = some (some (Double.mk (7479561718491785 / 4503599627370496))) := by
  have h := themeToggle_effect doubleMath (fun _ => Double.mk (1 / 4))
    (mount doubleMath (fun _ => 0)) 0 2
    (PlanetDatum.mk "Mercury" 2 18 (3 / 100)) (3 / 100) rfl rfl
  refine ⟨?_, ?_⟩
  · rw [h.2.2.2.1]
    decide
  · rw [h.2.2.2.2]
    decide!

/-- Counterexample to C4: on the mounted component after one frame Mercury is at
angle 0.06; a theme click puts it at 0.03, even when `Math.random()` repeats its
values, while the speed array is the same. -/
theorem themeToggle_alters_angle :
    angleOf (mountedOneFrame (JSMath.mk Real.cos Real.sin Real.pi)) 0
        = some (some (6 / 100 : ℝ)) ∧
      angleOf (themeToggle (JSMath.mk Real.cos Real.sin Real.pi) (fun _ => 0)
        (mountedOneFrame (JSMath.mk Real.cos Real.sin Real.pi))) 0
        = some (some (3 / 100 : ℝ)) ∧
      angleOf (themeToggle (JSMath.mk Real.cos Real.sin Real.pi) (fun _ => 0)
        (mountedOneFrame (JSMath.mk Real.cos Real.sin Real.pi))) 0
        ≠ angleOf (mountedOneFrame (JSMath.mk Real.cos Real.sin Real.pi)) 0 := by
  have h1 : angleOf (mountedOneFrame (JSMath.mk Real.cos Real.sin Real.pi)) 0
      = some (some (6 / 100 : ℝ)) := by
    have h := effect_frames_angle (JSMath.mk Real.cos Real.sin Real.pi) (fun _ => 0)
      (mount (JSMath.mk Real.cos Real.sin Real.pi) (fun _ => 0)) 0 1
      (PlanetDatum.mk "Mercury" 2 18 (3 / 100)) (3 / 100) rfl rfl rfl
    rw [show mountedOneFrame (JSMath.mk Real.cos Real.sin Real.pi)
      = frames (JSMath.mk Real.cos Real.sin Real.pi) 1
        (mount (JSMath.mk Real.cos Real.sin Real.pi) (fun _ => 0)) from rfl, h]
    norm_num
  have h2 : angleOf (themeToggle (JSMath.mk Real.cos Real.sin Real.pi) (fun _ => 0)
      (mountedOneFrame (JSMath.mk Real.cos Real.sin Real.pi))) 0
      = some (some (3 / 100 : ℝ)) := by
    have h := effect_frames_angle (JSMath.mk Real.cos Real.sin Real.pi) (fun _ => 0)
      (themeToggle (JSMath.mk Real.cos Real.sin Real.pi) (fun _ => 0)
        (mountedOneFrame (JSMath.mk Real.cos Real.sin Real.pi))) 0 0
      (PlanetDatum.mk "Mercury" 2 18 (3 / 100)) (3 / 100) rfl rfl rfl
    rw [show angleOf (themeToggle (JSMath.mk Real.cos Real.sin Real.pi) (fun _ => 0)
        (mountedOneFrame (JSMath.mk Real.cos Real.sin Real.pi))) 0
      = angleOf (frames (JSMath.mk Real.cos Real.sin Real.pi) 0
        (themeToggle (JSMath.mk Real.cos Real.sin Real.pi) (fun _ => 0)
        (mountedOneFrame (JSMath.mk Real.cos Real.sin Real.pi)))) 0 from rfl, h]
    norm_num
  refine ⟨h1, h2, ?_⟩
  rw [h2, h1]
  norm_num

/-! ## Claims about the pointer picker -/

/-- C7: for a pointer inside the window (`0 ≤ clientX ≤ innerWidth`,
`0 ≤ clientY ≤ innerHeight`, both window sizes positive) the pick coordinate lies in
`[-1, 1] × [-1, 1]`; the left and top edges map to `x = -1` and `y = 1`, the right
and bottom edges to `x = 1` and `y = -1`. -/
theorem mouseCoords_bounds [LinearOrderedField α] (event : MouseEvent α) (window : Window α)
    (hw : 0 < window.innerWidth) (hh : 0 < window.innerHeight)
    (hx0 : 0 ≤ event.clientX) (hx1 : event.clientX ≤ window.innerWidth)
    (hy0 : 0 ≤ event.clientY) (hy1 : event.clientY ≤ window.innerHeight) :
    mouseCoords event window
        = (event.clientX / window.innerWidth * 2 - 1,
           -(event.clientY / window.innerHeight) * 2 + 1) ∧
      (-1 ≤ (mouseCoords event window).1 ∧ (mouseCoords event window).1 ≤ 1) ∧
      (-1 ≤ (mouseCoords event window).2 ∧ (mouseCoords event window).2 ≤ 1) ∧
      (event.clientX = 0 → (mouseCoords event window).1 = -1) ∧
      (event.clientX = window.innerWidth → (mouseCoords event window).1 = 1) ∧
      (event.clientY = 0 → (mouseCoords event window).2 = 1) ∧
      (event.clientY = window.innerHeight → (mouseCoords event window).2 = -1) := by
  have hxa : 0 ≤ event.clientX / window.innerWidth := div_nonneg hx0 hw.le
  have hxb : event.clientX / window.innerWidth ≤ 1 := (div_le_one hw).2 hx1
  have hya : 0 ≤ event.clientY / window.innerHeight := div_nonneg hy0 hh.le
  have hyb : event.clientY / window.innerHeight ≤ 1 := (div_le_one hh).2 hy1
  simp only [mouseCoords]
  refine ⟨trivial, ⟨by linarith, by linarith⟩, ⟨by linarith, by linarith⟩, ?_, ?_, ?_, ?_⟩
  · intro h
    rw [h]
    norm_num
  · intro h
    rw [h, div_self hw.ne.symm]
    norm_num
  · intro h
    rw [h]
    norm_num
  · intro h
    rw [h, div_self hh.ne.symm]
    norm_num

/-- Instance of C7: the pointer at (480, 270) in a 1920 by 1080 window is picked at
(-1/2, 1/2). -/
theorem mouseCoords_bounds_witness :
    mouseCoords (MouseEvent.mk (480 : ℚ) 270) (Window.mk 1920 1080) = (-1 / 2, 1 / 2) ∧
    (-1 ≤ (mouseCoords (MouseEvent.mk (480 : ℚ) 270) (Window.mk 1920 1080)).1 ∧
      (mouseCoords (MouseEvent.mk (480 : ℚ) 270) (Window.mk 1920 1080)).1 ≤ 1) :=
  ⟨by norm_num [mouseCoords],
    (mouseCoords_bounds (MouseEvent.mk (480 : ℚ) 270) (Window.mk 1920 1080)
      (by norm_num) (by norm_num) (by norm_num) (by norm_num) (by norm_num) (by norm_num)).2.1⟩

/-- The tooltip is hidden exactly when the ray hits nothing, and a hit on a planet
mesh of the effect's `planets` array shows the name of that planet. -/
theorem handleMouseMove_mesh_hit [Field α] (M : JSMath α) (random : Nat → α)
    (intersectObjects : α × α → List (Mesh α) → List Object3D) (window : Window α)
    (tooltip : Tooltip α) (event : MouseEvent α) (planets : List (Planet α)) :
    ((handleMouseMove intersectObjects window planets tooltip event).display = "none" ↔
      intersectObjects (mouseCoords event window) (planets.map (fun p => p.mesh)) = []) ∧
    ∀ (i : Nat) (d : PlanetDatum α) (rest : List Object3D), planetData[i]? = some d →
      (handleMouseMove (fun _ _ => Object3D.planetMesh i :: rest) window
        (buildPlanets M random) tooltip event).innerText = some d.name := by
  constructor
  · unfold handleMouseMove
    cases h : intersectObjects (mouseCoords event window) (planets.map (fun p => p.mesh))
    · simp [h]
    · simp only [h]
      simp
  · intro i d rest hd
    have hi : i < 8 := by
      rcases Nat.lt_or_ge i 8 with h | h
      · exact h
      · rw [List.getElem?_eq_none (by simpa [planetData] using h)] at hd
        cases hd
    interval_cases i <;> simp [planetData] at hd <;> subst hd <;> rfl

/-- C6, at the failing input: when the nearest intersected object is the ring that the
effect attached to Saturn's mesh as a child, `handleMouseMove` shows the tooltip and
assigns `undefined` to its text, although the ring belongs to the registry body
Saturn and the tooltip names Saturn when the mesh itself is hit. -/
theorem handleMouseMove_saturn_ring [Field α] (M : JSMath α) (random : Nat → α)
    (window : Window α) (tooltip : Tooltip α) (event : MouseEvent α)
    (rest : List Object3D) :
    ((buildPlanets M random)[5]?).map (fun p => (p.name, p.mesh.id, p.mesh.children))
        = some ("Saturn", Object3D.planetMesh 5, [Object3D.saturnRing 5]) ∧
      bodyOf (buildPlanets M random) (Object3D.saturnRing 5) = some "Saturn" ∧
      (handleMouseMove (fun _ _ => Object3D.saturnRing 5 :: rest) window
        (buildPlanets M random) tooltip event).display = "block" ∧
      (handleMouseMove (fun _ _ => Object3D.saturnRing 5 :: rest) window
        (buildPlanets M random) tooltip event).innerText = none ∧
      (handleMouseMove (fun _ _ => Object3D.planetMesh 5 :: rest) window
        (buildPlanets M random) tooltip event).innerText = some "Saturn" :=
  ⟨rfl, rfl, rfl, rfl, rfl⟩

end SolarSystem
